import Mathlib

/-!
Verification of the machine-sync repository (src/main.go and the keychain
file) against its natural-language specification.

The embedding models:
- `checkFlags` (src/main.go, lines 39-65) over the four required string flags;
- the flag defaults installed by `main` (src/main.go, lines 222-252);
- `handleEvent` (src/main.go, lines 176-214) twice: once as a trace of
  operations over an abstract environment of step outcomes (`handleEvent`),
  and once as a state transformer on a remote filesystem (`handleEventFS`);
- the connection phase of `watch` (src/main.go, lines 87-174) as a trace of
  startup steps (`watchStartup`);
- `loadPEM` (keychain file, lines 31-44) with the file read and key parse
  abstracted as `Except` values.
-/

namespace MachineSync

/-- Kinds of filesystem change events delivered by the watcher.
`handleEvent` branches only on `evt.IsDelete()`; all other kinds
(create, modify, rename) take the else branch. -/
inductive EventKind where
  | created
  | modified
  | deleted
  | renamed
deriving DecidableEq, Repr

/-- A filesystem change event: `evt.Name` and its kind. -/
structure FileEvent where
  name : String
  kind : EventKind
deriving DecidableEq, Repr

/-- `evt.IsDelete()` from howeyc/fsnotify: true exactly for delete events. -/
def FileEvent.isDelete (evt : FileEvent) : Bool :=
  evt.kind = EventKind.deleted

/-- The remote path computed at src/main.go line 179:
`fmt.Sprintf("%s/%s", destPath, evt.Name)` — plain forward-slash
concatenation, no relativization and no `filepath.Join`. -/
def mapPath (destPath name : String) : String :=
  destPath ++ "/" ++ name

/-- Observable operations performed by one run of `handleEvent`.
`lockAcquire`/`lockRelease` model `mutex.Lock()`/`mutex.Unlock()` on the
package-level mutex (src/main.go line 35); `sendErrChan` models a send on
the `errChan` parameter; `logError` models a direct `log.Error`/`log.Errorf`
call. -/
inductive Op where
  | openLocal (p : String)
  | readLocal (p : String)
  | remoteRemove (p : String)
  | remoteCreate (p : String)
  | remoteWrite (p : String) (data : List Nat)
  | lockAcquire
  | lockRelease
  | logError
  | sendErrChan
deriving DecidableEq, Repr

/-- Outcomes of the fallible steps inside one run of `handleEvent`:
whether `os.Open` succeeds, whether `rsftp.Remove` succeeds, whether
`rsftp.Create` succeeds, whether `ioutil.ReadAll` succeeds and what bytes
it returns, and whether `remoteFile.Write` succeeds. -/
structure Env where
  openOk : Bool
  removeOk : Bool
  createOk : Bool
  readOk : Bool
  writeOk : Bool
  content : List Nat
deriving DecidableEq, Repr

/-- Trace semantics of `handleEvent` (src/main.go lines 176-214).
Each attempted operation is recorded, followed by `logError` when the Go
code logs the error and returns.  The Go body never touches `mutex` and
never sends on `errChan`, so no trace contains `lockAcquire`,
`lockRelease` or `sendErrChan`. -/
def handleEvent (destPath : String) (evt : FileEvent) (env : Env) : List Op :=
  let filePath := mapPath destPath evt.name
  if evt.isDelete then
    -- if err := rsftp.Remove(filePath); err != nil { log.Error(err); return }
    if env.removeOk then
      [Op.remoteRemove filePath]
    else
      [Op.remoteRemove filePath, Op.logError]
  else
    -- localFile, err := os.Open(evt.Name)
    if !env.openOk then
      [Op.openLocal evt.name, Op.logError]
    else
      -- _ = rsftp.Remove(filePath)  (failure deliberately ignored)
      [Op.openLocal evt.name, Op.remoteRemove filePath] ++
      -- remoteFile, err := rsftp.Create(filePath)
      (if !env.createOk then
        [Op.remoteCreate filePath, Op.logError]
      else
        [Op.remoteCreate filePath] ++
        -- data, err := ioutil.ReadAll(localFile)
        (if !env.readOk then
          [Op.readLocal evt.name, Op.logError]
        else
          [Op.readLocal evt.name] ++
          -- _, err := remoteFile.Write(data)
          (if !env.writeOk then
            [Op.remoteWrite filePath env.content, Op.logError]
          else
            [Op.remoteWrite filePath env.content])))

/-- Predicate: the operation is a remote remove. -/
def Op.isRemove : Op → Bool
  | Op.remoteRemove _ => true
  | _ => false

/-- Predicate: the operation is a remote create. -/
def Op.isCreate : Op → Bool
  | Op.remoteCreate _ => true
  | _ => false

/-- Predicate: the operation is a remote write. -/
def Op.isWrite : Op → Bool
  | Op.remoteWrite _ _ => true
  | _ => false

/-- Predicate: the operation is any remote operation (remove, create or
write) against the shared sftp session. -/
def Op.isRemote : Op → Bool
  | Op.remoteRemove _ => true
  | Op.remoteCreate _ => true
  | Op.remoteWrite _ _ => true
  | _ => false

/-- Predicate: the operation is an error log. -/
def Op.isLogError : Op → Bool
  | Op.logError => true
  | _ => false

/-- Predicate: the operation is a send on the error channel. -/
def Op.isSend : Op → Bool
  | Op.sendErrChan => true
  | _ => false

/-- Predicate: the operation is a mutex acquisition. -/
def Op.isLock : Op → Bool
  | Op.lockAcquire => true
  | _ => false

/-- Number of operations in a trace satisfying a predicate. -/
def countOps (tr : List Op) (f : Op → Bool) : Nat :=
  (tr.filter f).length

/-- A filesystem as a partial map from path to byte content. -/
def FS : Type := String → Option (List Nat)

/-- Point update of a filesystem. -/
def fsUpdate (fs : FS) (p : String) (v : Option (List Nat)) : FS :=
  fun q => if q = p then v else fs q

/-- State-transformer semantics of `handleEvent` (src/main.go lines
176-214) on the remote filesystem, with the sftp operations interpreted
against `fs`: `rsftp.Remove` deletes the entry and fails iff the path is
absent, `rsftp.Create` creates an empty file (truncating any existing
one), `remoteFile.Write(data)` stores `data` in the freshly created file.
`localFS` gives the readable local files; `os.Open`/`ioutil.ReadAll`
fail iff `localFS evt.Name` is `none`.  On any logged error the Go code
returns, leaving the remote state as it stands. -/
def handleEventFS (destPath : String) (localFS : FS) (evt : FileEvent)
    (fs : FS) : FS :=
  let filePath := mapPath destPath evt.name
  if evt.isDelete then
    match fs filePath with
    | none => fs                         -- Remove fails: log.Error; return
    | some _ => fsUpdate fs filePath none
  else
    match localFS evt.name with
    | none => fs                         -- os.Open fails: log.Error; return
    | some data =>
        let fs1 := fsUpdate fs filePath none        -- _ = rsftp.Remove(filePath)
        let fs2 := fsUpdate fs1 filePath (some [])  -- rsftp.Create(filePath)
        fsUpdate fs2 filePath (some data)           -- remoteFile.Write(data)

/-- `checkFlags` (src/main.go lines 39-65): checks the four required
global string flags in order and returns `errFlagError` after logging a
message for the first empty one; returns nil when all four are
non-empty.  The result is `some msg` for the logged message when the
flag error is returned, `none` for a nil error. -/
def checkFlags (directory machine destination user : String) : Option String :=
  if directory = "" then some "you must specify a directory"
  else if machine = "" then some "you must specify a machine"
  else if destination = "" then some "you must specify a destination path"
  else if user = "" then some "you must specify a user"
  else none

/-- Default value of the `directory, d` flag (src/main.go line 225). -/
def directoryDefault : String := ""

/-- Default value of the `machine, m` flag (src/main.go line 230). -/
def machineDefault : String := ""

/-- Default value of the `destination, p` flag (src/main.go line 240). -/
def destinationDefault : String := ""

/-- Default value of the `user, u` flag (src/main.go line 245). -/
def userDefault : String := "root"

/-- Resolution of a cli string flag: the supplied value when the flag is
given on the command line, its declared default otherwise. -/
def resolveFlag (supplied : Option String) (deflt : String) : String :=
  match supplied with
  | some v => v
  | none => deflt

/-- Observable steps of the startup/connection phase of `watch`
(src/main.go lines 87-174). `fatalExit` models `log.Fatal` (which exits
the process); `assignSession valid` models `rsftp = ftp` where `valid`
records whether `sftp.NewClient` succeeded; `startWatch` models the
`watcher.Watch(directory)` call that begins the directory watch. -/
inductive WatchStep where
  | loadedConfig
  | loadedKey
  | dialedSSH
  | assignSession (valid : Bool)
  | createdWatcher
  | startWatch
  | fatalExit
deriving DecidableEq, Repr

/-- Outcomes of the fallible startup steps of `watch`: loading
config.json, loading the PEM key, `ssh.Dial`, `sftp.NewClient`,
`fsnotify.NewWatcher`, and `watcher.Watch`. -/
structure WatchEnv where
  loadConfigOk : Bool
  loadPEMOk : Bool
  sshDialOk : Bool
  sftpNewOk : Bool
  watcherNewOk : Bool
  watchStartOk : Bool
deriving DecidableEq, Repr

/-- Trace semantics of the startup phase of `watch` (src/main.go lines
87-174).  Mirrors the Go control flow: every fallible step except
`sftp.NewClient` is followed by `if err != nil { log.Fatal(err) }`; the
error of `sftp.NewClient` (line 134) is assigned but never checked, and
`rsftp = ftp` stores the (possibly nil) client before the watcher is
created and the watch is started. -/
def watchStartup (env : WatchEnv) : List WatchStep :=
  -- machineConfig, err := loadConfig(); if err != nil { log.Fatal(err) }
  if !env.loadConfigOk then [WatchStep.fatalExit]
  else
    [WatchStep.loadedConfig] ++
    -- if err := kc.loadPEM(keyPath); err != nil { log.Fatal(err) }
    (if !env.loadPEMOk then [WatchStep.fatalExit]
    else
      [WatchStep.loadedKey] ++
      -- sshClient, err := ssh.Dial(...); if err != nil { log.Fatal(err) }
      (if !env.sshDialOk then [WatchStep.fatalExit]
      else
        [WatchStep.dialedSSH,
         -- ftp, err := sftp.NewClient(sshClient); rsftp = ftp
         -- (err is NOT checked here)
         WatchStep.assignSession env.sftpNewOk] ++
        -- watcher, err := fsnotify.NewWatcher(); if err != nil { log.Fatal }
        (if !env.watcherNewOk then [WatchStep.fatalExit]
        else
          [WatchStep.createdWatcher] ++
          -- err = watcher.Watch(directory); if err != nil { log.Fatal(err) }
          (if !env.watchStartOk then [WatchStep.startWatch, WatchStep.fatalExit]
          else [WatchStep.startWatch]))))

/-- The keychain type (keychain file, lines 15-17): its `key` field is
`nil` (here `none`) until `loadPEM` assigns it. -/
structure Keychain (K : Type) where
  key : Option K
deriving DecidableEq, Repr

/-- `loadPEM` (keychain file, lines 31-44) with the two I/O steps
abstracted: `readFile` is the outcome of `ioutil.ReadFile(file)` and
`parsePrivateKey` is `ssh.ParsePrivateKey`.  Returns the updated
keychain together with the returned error (`none` for nil). -/
def loadPEM {K E B : Type} (readFile : Except E B)
    (parsePrivateKey : B → Except E K) (k : Keychain K) :
    Keychain K × Option E :=
  match readFile with
  | Except.error e => (k, some e)
  | Except.ok buf =>
    match parsePrivateKey buf with
    | Except.error e => (k, some e)
    | Except.ok key => ({ key := some key }, none)

/-- Byte content of the string `"hello"`. -/
def helloBytes : List Nat := [104, 101, 108, 108, 111]

/-- Local filesystem of the end-to-end scenario: the single readable file
`/src/notes.txt` with content `"hello"`. -/
def notesLocalFS : FS :=
  fun p => if p = "/src/notes.txt" then some helloBytes else none

/-- The empty remote filesystem. -/
def emptyFS : FS := fun _ => none

/-- Claim C8: `checkFlags` returns the fatal flag error if and only if at
least one of the four flags directory, machine, destination, user is the
empty string; when all four are non-empty it returns no error. -/
theorem checkFlags_fails_iff_empty (d m p u : String) :
    checkFlags d m p u ≠ none ↔ (d = "" ∨ m = "" ∨ p = "" ∨ u = "") := by
  unfold checkFlags
  split_ifs with h1 h2 h3 h4 <;> simp_all

/-- Claim C10: the user flag defaults to `"root"` while directory,
machine and destination default to `""`; omitting `--user` therefore
never produces the "you must specify a user" error, which can occur only
when an empty user value is explicitly supplied. -/
theorem user_default_prevents_user_error :
    userDefault = "root" ∧ directoryDefault = "" ∧ machineDefault = "" ∧
    destinationDefault = "" ∧
    (∀ d m p, checkFlags d m p (resolveFlag none userDefault) ≠
      some "you must specify a user") ∧
    (∀ d m p su, checkFlags d m p (resolveFlag su userDefault) =
      some "you must specify a user" → su = some "") := by
  refine ⟨rfl, rfl, rfl, rfl, ?_, ?_⟩
  · intro d m p
    unfold checkFlags resolveFlag userDefault
    split_ifs <;> simp_all
  · intro d m p su h
    unfold checkFlags at h
    split_ifs at h with h1 h2 h3 h4
    · simp_all
    · simp_all
    · simp_all
    · cases su with
      | none => simp [resolveFlag, userDefault] at h4
      | some v => simp [resolveFlag] at h4; simp [h4]

/-- Claim C9: `loadPEM` is atomic on error: if reading the key file or
parsing the key fails, the returned error is reported and the keychain is
unchanged; the key field is assigned exactly when both steps succeed. -/
theorem loadPEM_atomic (K E B : Type) (r : Except E B)
    (p : B → Except E K) (k : Keychain K) :
    (∀ e, (loadPEM r p k).2 = some e → (loadPEM r p k).1 = k) ∧
    ((loadPEM r p k).2 = none →
      ∃ b key, r = Except.ok b ∧ p b = Except.ok key ∧
        (loadPEM r p k).1 = { key := some key }) := by
  constructor
  · intro e h
    cases r with
    | error e2 => rfl
    | ok buf =>
      cases hp : p buf with
      | error e2 => simp [loadPEM, hp]
      | ok key => simp [loadPEM, hp] at h
  · intro h
    cases r with
    | error e2 => simp [loadPEM] at h
    | ok buf =>
      cases hp : p buf with
      | error e2 => simp [loadPEM, hp] at h
      | ok key => exact ⟨buf, key, rfl, hp, by simp [loadPEM, hp]⟩

/-- Claim C1: the claim says a failure of `sftp.NewClient` is fatal and
the process exits before the watch begins.  The code violates this: the
error returned at src/main.go line 134 is never checked, the invalid
session is stored in `rsftp`, and the startup proceeds all the way to
`watcher.Watch` without any fatal exit. -/
theorem sftp_failure_not_fatal :
    watchStartup ⟨true, true, true, false, true, true⟩ =
      [WatchStep.loadedConfig, WatchStep.loadedKey, WatchStep.dialedSSH,
       WatchStep.assignSession false, WatchStep.createdWatcher,
       WatchStep.startWatch] ∧
    WatchStep.fatalExit ∉ watchStartup ⟨true, true, true, false, true, true⟩ ∧
    WatchStep.startWatch ∈ watchStartup ⟨true, true, true, false, true, true⟩ := by
  refine ⟨rfl, by decide, by decide⟩

/-- Claim C2: the claim says every handling failure is delivered to the
error channel drained by the dedicated reporting unit.  The code violates
this: `handleEvent` never sends on its `errChan` parameter for any event
and any outcome; at the failing input (a created event whose local file
is unreadable) it performs no remote operation and logs exactly one error
directly, delivering nothing to the channel. -/
theorem failures_never_sent_to_errchan :
    (∀ d evt env, countOps (handleEvent d evt env) Op.isSend = 0) ∧
    countOps (handleEvent "/dest" ⟨"/src/a.txt", EventKind.created⟩
      ⟨false, true, true, true, true, []⟩) Op.isRemote = 0 ∧
    countOps (handleEvent "/dest" ⟨"/src/a.txt", EventKind.created⟩
      ⟨false, true, true, true, true, []⟩) Op.isLogError = 1 ∧
    countOps (handleEvent "/dest" ⟨"/src/a.txt", EventKind.created⟩
      ⟨false, true, true, true, true, []⟩) Op.isSend = 0 := by
  refine ⟨?_, by decide, by decide, by decide⟩
  intro d evt env
  rcases evt with ⟨nm, k⟩
  rcases env with ⟨o, r, c, rd, w, data⟩
  cases k <;> cases o <;> cases r <;> cases c <;> cases rd <;> cases w <;>
    simp [handleEvent, countOps, FileEvent.isDelete, mapPath, Op.isSend,
      List.filter]

/-- Claim C4: the claim says every handling unit acquires the
process-wide mutex before its first remote operation and releases it
after its last.  The code violates this: the `mutex` declared at
src/main.go line 35 is never referenced in `handleEvent`, so no trace of
`handleEvent` contains a lock acquisition or release. -/
theorem handleEvent_never_locks (d : String) (evt : FileEvent) (env : Env) :
    countOps (handleEvent d evt env) Op.isLock = 0 ∧
    Op.lockAcquire ∉ handleEvent d evt env ∧
    Op.lockRelease ∉ handleEvent d evt env := by
  rcases evt with ⟨nm, k⟩
  rcases env with ⟨o, r, c, rd, w, data⟩
  cases k <;> cases o <;> cases r <;> cases c <;> cases rd <;> cases w <;>
    simp [handleEvent, countOps, FileEvent.isDelete, mapPath, Op.isLock,
      List.filter]

/-- Claim C5: handling a Deleted event on path P issues exactly one
remote remove, against `destPath ++ "/" ++ P`, and no remote create or
write; on remove failure the trace is the failed remove followed by a
single error report and nothing else (no retry). -/
theorem deleted_exactly_one_remove (d P : String) (env : Env) :
    countOps (handleEvent d ⟨P, EventKind.deleted⟩ env) Op.isRemove = 1 ∧
    Op.remoteRemove (d ++ "/" ++ P) ∈ handleEvent d ⟨P, EventKind.deleted⟩ env ∧
    countOps (handleEvent d ⟨P, EventKind.deleted⟩ env) Op.isCreate = 0 ∧
    countOps (handleEvent d ⟨P, EventKind.deleted⟩ env) Op.isWrite = 0 ∧
    (env.removeOk = false →
      handleEvent d ⟨P, EventKind.deleted⟩ env =
        [Op.remoteRemove (d ++ "/" ++ P), Op.logError]) := by
  rcases env with ⟨o, r, c, rd, w, data⟩
  cases r <;>
    simp [handleEvent, countOps, FileEvent.isDelete, mapPath,
      Op.isRemove, Op.isCreate, Op.isWrite, List.filter]

/-- Claim C6: for a Created, Modified or Renamed event the handling
performs, in order: local open, remote remove (whose failure never
changes the trace), remote create, local read, remote write; the first
failure at open, create, read or write ends the trace with a single
error report, so no later remote operation is issued. -/
theorem nondelete_order (d nm : String) (k : EventKind) (env : Env)
    (hk : k ≠ EventKind.deleted) :
    (handleEvent d ⟨nm, k⟩ env).head? = some (Op.openLocal nm) ∧
    (env.openOk = false →
      handleEvent d ⟨nm, k⟩ env = [Op.openLocal nm, Op.logError]) ∧
    (∀ b1 b2 : Bool,
      handleEvent d ⟨nm, k⟩
        ⟨env.openOk, b1, env.createOk, env.readOk, env.writeOk, env.content⟩ =
      handleEvent d ⟨nm, k⟩
        ⟨env.openOk, b2, env.createOk, env.readOk, env.writeOk, env.content⟩) ∧
    (env.openOk = true →
      (handleEvent d ⟨nm, k⟩ env).take 3 =
        [Op.openLocal nm, Op.remoteRemove (mapPath d nm),
         Op.remoteCreate (mapPath d nm)]) ∧
    (env.openOk = true ∧ env.createOk = false →
      handleEvent d ⟨nm, k⟩ env =
        [Op.openLocal nm, Op.remoteRemove (mapPath d nm),
         Op.remoteCreate (mapPath d nm), Op.logError]) ∧
    (env.openOk = true ∧ env.createOk = true ∧ env.readOk = false →
      handleEvent d ⟨nm, k⟩ env =
        [Op.openLocal nm, Op.remoteRemove (mapPath d nm),
         Op.remoteCreate (mapPath d nm), Op.readLocal nm, Op.logError]) ∧
    (env.openOk = true ∧ env.createOk = true ∧ env.readOk = true ∧
        env.writeOk = false →
      handleEvent d ⟨nm, k⟩ env =
        [Op.openLocal nm, Op.remoteRemove (mapPath d nm),
         Op.remoteCreate (mapPath d nm), Op.readLocal nm,
         Op.remoteWrite (mapPath d nm) env.content, Op.logError]) ∧
    (env.openOk = true ∧ env.createOk = true ∧ env.readOk = true ∧
        env.writeOk = true →
      handleEvent d ⟨nm, k⟩ env =
        [Op.openLocal nm, Op.remoteRemove (mapPath d nm),
         Op.remoteCreate (mapPath d nm), Op.readLocal nm,
         Op.remoteWrite (mapPath d nm) env.content]) := by
  rcases env with ⟨o, r, c, rd, w, data⟩
  cases k <;> simp at hk <;>
    cases o <;> cases r <;> cases c <;> cases rd <;> cases w <;>
      simp [handleEvent, FileEvent.isDelete]

/-- Witness for `nondelete_order` at a concrete created event with every
step succeeding. -/
theorem nondelete_order_witness :
    handleEvent "/d" ⟨"f", EventKind.created⟩ ⟨true, true, true, true, true, [1]⟩ =
      [Op.openLocal "f", Op.remoteRemove (mapPath "/d" "f"),
       Op.remoteCreate (mapPath "/d" "f"), Op.readLocal "f",
       Op.remoteWrite (mapPath "/d" "f") [1]] :=
  (nondelete_order "/d" "f" EventKind.created
    ⟨true, true, true, true, true, [1]⟩ (by decide)).2.2.2.2.2.2.2
    ⟨rfl, rfl, rfl, rfl⟩

/-- Claim C3 counterexample: the claim says the create event for local
file `/src/notes.txt` under watch root `/src` with destination `/dest`
puts the remote file at exactly `/dest/notes.txt`.  The code performs no
relativization to the watch root: after handling, `/dest/notes.txt` does
not exist and the content lands at `/dest//src/notes.txt`. -/
theorem create_event_not_at_dest_notes :
    handleEventFS "/dest" notesLocalFS ⟨"/src/notes.txt", EventKind.created⟩
      emptyFS "/dest/notes.txt" = none ∧
    handleEventFS "/dest" notesLocalFS ⟨"/src/notes.txt", EventKind.created⟩
      emptyFS "/dest//src/notes.txt" = some helloBytes := by
  constructor <;> rfl

/-- Claim C3 (amended): the remote path is `destPath ++ "/" ++ evt.Name`
with no relativization to the watch root; the create event for
`/src/notes.txt` with content "hello" yields the remote file
`/dest//src/notes.txt` with content "hello", and the subsequent delete
event removes `/dest//src/notes.txt`. -/
theorem create_delete_end_to_end :
    (∀ d n, mapPath d n = d ++ "/" ++ n) ∧
    handleEventFS "/dest" notesLocalFS ⟨"/src/notes.txt", EventKind.created⟩
      emptyFS "/dest//src/notes.txt" = some helloBytes ∧
    handleEventFS "/dest" notesLocalFS ⟨"/src/notes.txt", EventKind.deleted⟩
      (handleEventFS "/dest" notesLocalFS
        ⟨"/src/notes.txt", EventKind.created⟩ emptyFS)
      "/dest//src/notes.txt" = none := by
  exact ⟨fun d n => rfl, rfl, rfl⟩

/-- Claim C7: handling the same Modified event twice against the same
local filesystem (unchanged content) leaves the remote filesystem — in
particular the file at the mapped path — identical after either run. -/
theorem modified_idempotent (d : String) (localFS : FS) (nm : String)
    (fs : FS) :
    handleEventFS d localFS ⟨nm, EventKind.modified⟩
      (handleEventFS d localFS ⟨nm, EventKind.modified⟩ fs) =
    handleEventFS d localFS ⟨nm, EventKind.modified⟩ fs := by
  funext p
  simp only [handleEventFS, FileEvent.isDelete]
  cases h : localFS nm with
  | none => simp [h]
  | some data =>
    simp only [h]
    by_cases hp : p = mapPath d nm <;> simp [fsUpdate, hp]

end MachineSync
